import Mathlib

/-!
Verification development for the `e2b-aider-generator-previewer` repository.

The Python sources (`generator.py`, `previewer.py`) are shallowly embedded
below.  Remote sandbox sessions are modelled as explicit behaviour records:
each remote command returns `Except String CmdResult` (an `.error` models the
underlying SDK call raising an exception whose message is the carried string),
file reads return `Except String String`, and Python dictionaries are
insertion-ordered association lists `List (String × String)`.  String
primitives used by the source (`str.replace`, `str.strip`, `str.split`,
`str.startswith`, `str.endswith`, `str.lower`, substring membership) are
embedded as executable functions over `List Char`.

The module `generator.py` is the authoritative generator implementation: the
repository's unit tests import `generator`, and `e2b_aider_generator.py` is
the superseded duplicated example file.
-/

/-! ## String primitives (embedded over `List Char`) -/

/-- Python substring membership `pat in s` over char lists. -/
def occursB (pat : List Char) : List Char → Bool
  | [] => pat.isEmpty
  | c :: rest => pat.isPrefixOf (c :: rest) || occursB pat rest

/-- Python `str.replace(pat, "")` for a non-empty pattern: scan left to
right, deleting each non-overlapping occurrence.  The `fuel` argument makes
the recursion structural (each step consumes at least one character, so any
`fuel ≥ s.length` computes the scan to completion). -/
def replaceAllFuel (pat : List Char) : Nat → List Char → List Char
  | _, [] => []
  | 0, s => s
  | fuel + 1, c :: rest =>
    if pat.isPrefixOf (c :: rest) then
      replaceAllFuel pat fuel (rest.drop (pat.length - 1))
    else c :: replaceAllFuel pat fuel rest

/-- Python `str.replace(pat, "")` (an empty pattern with an empty
replacement leaves the string unchanged). -/
def replaceAllD (pat s : List Char) : List Char :=
  match pat with
  | [] => s
  | _ :: _ => replaceAllFuel pat s.length s

/-- Python `str.lower()` (ASCII-adequate, as in all inputs of this program). -/
def pyLower (s : List Char) : List Char := s.map Char.toLower

/-- Python `str.strip()` with default whitespace characters. -/
def pyStrip (s : List Char) : List Char :=
  ((s.dropWhile Char.isWhitespace).reverse.dropWhile Char.isWhitespace).reverse

/-- Python `str.split(sep)` for a single-character separator. -/
def splitLines : List Char → List (List Char)
  | [] => [[]]
  | c :: rest =>
    match splitLines rest with
    | [] => [[]]
    | g :: gs => if c = '\n' then [] :: g :: gs else (c :: g) :: gs

/-! ## Remote command results -/

/-- Result of `sandbox.commands.run`: exit code plus captured output. -/
structure CmdResult where
  exit_code : Nat
  stdout : String
  stderr : String
deriving DecidableEq

/-! ## Artifact harvester (`generator.py`, `E2BAiderClient._get_generated_files`) -/

/-- Key computation of the harvester:
`rel_path = file_path.replace(f'{project_dir}/', '')` — note Python's
`str.replace` deletes every occurrence, not only a leading prefix. -/
def rel_path_of (project_dir file_path : String) : String :=
  ⟨replaceAllD (project_dir ++ "/").data file_path.data⟩

/-- The denylist `skip_files` of `_get_generated_files`. -/
def skip_file_names : List String := [".aider.input.history", ".aider.chat.history.md"]

/-- Name of the persisted prompt file written by `_run_aider_prompt`. -/
def prompt_file_name : String := ".aider_prompt.txt"

/-- The skip test of `_get_generated_files`:
`rel_path.startswith('.aider_prompt.txt') or rel_path in skip_files` (negated:
`true` means the entry is kept). -/
def keep_path (project_dir file_path : String) : Bool :=
  let rel := rel_path_of project_dir file_path
  !(prompt_file_name.data.isPrefixOf rel.data) && !(skip_file_names.contains rel)

/-- Value stored for one file: its decoded content on a successful read, or
the placeholder `f'Error reading file: {e}'` when the read raised. -/
def read_outcome (read_file : String → Except String String) (file_path : String) : String :=
  match read_file file_path with
  | .ok content => content
  | .error msg => "Error reading file: " ++ msg

/-- Python dictionary assignment `d[k] = v` on an insertion-ordered
association list: overwrite in place if the key exists, else append. -/
def dict_insert (d : List (String × String)) (k v : String) : List (String × String) :=
  match d with
  | [] => [(k, v)]
  | e :: rest => if e.1 = k then (k, v) :: rest else e :: dict_insert rest k v

/-- `find_result.stdout.strip().split('\n')` turned back into strings. -/
def parse_find_stdout (stdout : String) : List String :=
  (splitLines (pyStrip stdout.data)).map (fun l => (⟨l⟩ : String))

/-- One iteration of the harvesting loop of `_get_generated_files`. -/
def harvest_step (read_file : String → Except String String) (project_dir : String)
    (acc : List (String × String)) (file_path : String) : List (String × String) :=
  if (pyStrip file_path.data).isEmpty then acc
  else if keep_path project_dir file_path then
    dict_insert acc (rel_path_of project_dir file_path) (read_outcome read_file file_path)
  else acc

/-- `E2BAiderClient._get_generated_files` (generator.py, lines 249-279), as a
function of the result of the `find` command and of the session's
file-read behaviour. -/
def get_generated_files (find_result : CmdResult)
    (read_file : String → Except String String) (project_dir : String) :
    List (String × String) :=
  if find_result.exit_code ≠ 0 then
    [("error", "Failed to list files: " ++ find_result.stderr)]
  else
    (parse_find_stdout find_result.stdout).foldl (harvest_step read_file project_dir) []

/-- A listed path is actually processed by the harvesting loop exactly when
it is non-blank after stripping and survives the denylist test. -/
def kept (project_dir p : String) : Bool :=
  !(pyStrip p.data).isEmpty && keep_path project_dir p

/-- Concrete find listing used to witness claim C8. -/
def c8_find : CmdResult :=
  { exit_code := 0, stdout := "/tmp/project/a.py\n/tmp/project/b.py", stderr := "" }

/-- Concrete read behaviour used to witness claim C8: one readable file, one
unreadable file. -/
def c8_read : String → Except String String := fun p =>
  if p = "/tmp/project/a.py" then .ok "print(1)" else .error "boom"

/-! ## Code-generation orchestrator (`generator.py`, `E2BAiderClient.generate_code`) -/

/-- Client configuration retained by `E2BAiderClient.__init__`. -/
structure ClientCfg where
  openai_api_key : String
  openai_api_base : Option String
  openai_model : String
  aider_template_id : Option String

/-- Observable behaviour of one sandbox session during a generation run.
Each field is the outcome of the corresponding remote call, `.error msg`
modelling the call raising an exception whose message is `msg`. -/
structure GenBehavior where
  create_err : Option String
  mkdir_res : Except String CmdResult
  pip_aider_res : Except String CmdResult
  pip_openai_res : Except String CmdResult
  which_res : Except String CmdResult
  write_prompt_res : Except String Unit
  aider_res : Except String CmdResult
  find_res : Except String CmdResult
  read_file : String → Except String String

/-- `E2BAiderClient._install_aider`: two pip commands then `which aider`,
raising (with the source's message) on any non-zero exit code. -/
def install_aider (b : GenBehavior) : Except String Unit :=
  match b.pip_aider_res with
  | .error m => .error m
  | .ok r1 =>
    if r1.exit_code ≠ 0 then
      .error ("Failed to install aider with command \"pip install aider-chat\": " ++ r1.stderr)
    else
      match b.pip_openai_res with
      | .error m => .error m
      | .ok r2 =>
        if r2.exit_code ≠ 0 then
          .error ("Failed to install aider with command \"pip install openai\": " ++ r2.stderr)
        else
          match b.which_res with
          | .error m => .error m
          | .ok r3 =>
            if r3.exit_code ≠ 0 then
              .error ("Aider not found after installation: " ++ r3.stderr)
            else .ok ()

/-- The combined output built by `_run_aider_prompt` from the streamed
stdout/stderr buffers and the tool's exit code. -/
def run_aider_prompt_output (r : CmdResult) : String :=
  "STDOUT:\n" ++ r.stdout ++ "\nSTDERR:\n" ++ r.stderr ++ "\nReturn code: " ++
    toString r.exit_code

/-- `E2BAiderClient._run_aider_prompt`: write the prompt file (raising with a
wrapped message on failure), run aider, and return the combined output — a
non-zero aider exit code is only logged, never raised. -/
def run_aider_prompt (b : GenBehavior) (prompt : String) : Except String String :=
  match b.write_prompt_res with
  | .error m => .error ("Failed to write prompt file: " ++ m)
  | .ok _ =>
    match b.aider_res with
    | .error m => .error m
    | .ok r => .ok (run_aider_prompt_output r)

/-- The body of the `try` block of `generate_code`: any `.error` models an
exception propagating to the enclosing `except`. -/
def generate_code_exec (cfg : ClientCfg) (b : GenBehavior) (prompt project_dir : String) :
    Except String (String × List (String × String)) :=
  match b.create_err with
  | some m => .error m
  | none =>
    match b.mkdir_res with
    | .error m => .error m
    | .ok r =>
      if r.exit_code ≠ 0 then
        .error ("Failed to create project directory: " ++ r.stderr)
      else
        match (if cfg.aider_template_id.isNone then install_aider b else Except.ok ()) with
        | .error m => .error m
        | .ok _ =>
          match run_aider_prompt b prompt with
          | .error m => .error m
          | .ok output =>
            match b.find_res with
            | .error m => .error m
            | .ok fr => .ok (output, get_generated_files fr b.read_file project_dir)

/-- Result dataclass of `generate_code` (wall-clock `execution_time` is a
real-time measurement and is not modelled). -/
structure CodeGenerationResult where
  success : Bool
  output : String
  generated_files : List (String × String)
  error_message : Option String

/-- `E2BAiderClient.generate_code` (generator.py, lines 88-155): the `try`
body on success, the `except` conversion to a failed result otherwise. -/
def generate_code (cfg : ClientCfg) (b : GenBehavior)
    (prompt : String) (project_dir : String := "/tmp/project") : CodeGenerationResult :=
  match generate_code_exec cfg b prompt project_dir with
  | .ok (out, files) =>
    { success := true, output := out, generated_files := files, error_message := none }
  | .error m =>
    { success := false, output := "", generated_files := [], error_message := some m }

/-- Configuration used by the concrete C2 scenarios. -/
def c2_cfg : ClientCfg :=
  { openai_api_key := "k", openai_api_base := none, openai_model := "gpt-4",
    aider_template_id := some "tpl" }

/-- Session behaviour whose creation raises an exception with an empty
message — Python `str(e)` of such an exception is the empty string. -/
def c2_behavior : GenBehavior :=
  { create_err := some ""
    mkdir_res := .ok ⟨0, "", ""⟩
    pip_aider_res := .ok ⟨0, "", ""⟩
    pip_openai_res := .ok ⟨0, "", ""⟩
    which_res := .ok ⟨0, "", ""⟩
    write_prompt_res := .ok ()
    aider_res := .ok ⟨0, "", ""⟩
    find_res := .ok ⟨0, "", ""⟩
    read_file := fun _ => .ok "" }

/-- Configuration used by the concrete C6 scenario (pre-baked template, so
the install sequence is skipped). -/
def c6_cfg : ClientCfg :=
  { openai_api_key := "k", openai_api_base := none, openai_model := "gpt-4",
    aider_template_id := some "tpl" }

/-- Session behaviour in which every setup step succeeds and aider exits
with code 2. -/
def c6_behavior : GenBehavior :=
  { create_err := none
    mkdir_res := .ok ⟨0, "", ""⟩
    pip_aider_res := .ok ⟨0, "", ""⟩
    pip_openai_res := .ok ⟨0, "", ""⟩
    which_res := .ok ⟨0, "", ""⟩
    write_prompt_res := .ok ()
    aider_res := .ok ⟨2, "OUT", "ERR"⟩
    find_res := .ok ⟨0, "/tmp/project/x.py", ""⟩
    read_file := fun _ => .ok "pass" }

/-! ## Aider invocation plan (`generator.py`, `E2BAiderClient._run_aider_prompt`) -/

/-- `prompt_file = f'{project_dir}/.aider_prompt.txt'`. -/
def prompt_file_path (project_dir : String) : String :=
  project_dir ++ "/.aider_prompt.txt"

/-- The aider command string built by `_run_aider_prompt` (generator.py,
lines 189-204): it references the prompt file via `--message-file` and never
mentions the prompt text itself. -/
def aider_command (openai_api_key : String) (openai_api_base : Option String)
    (model prompt_file : String) : String :=
  "aider --model \x27" ++ model ++ "\x27 " ++
    "--openai-api-key \x27" ++ openai_api_key ++ "\x27 " ++
    (match openai_api_base with
     | some base => "--openai-api-base \x27" ++ base ++ "\x27 "
     | none => "") ++
    "--message-file \x27" ++ prompt_file ++ "\x27 --no-git --yes"

/-- The observable plan of `_run_aider_prompt`: the (path, content) pair it
writes via `sandbox.files.write`, and the command it submits. -/
def run_aider_prompt_plan (prompt project_dir openai_api_key : String)
    (openai_api_base : Option String) (model : String) : (String × String) × String :=
  ((prompt_file_path project_dir, prompt),
   aider_command openai_api_key openai_api_base model (prompt_file_path project_dir))

/-! ## Preview type detection (`previewer.py`, `detect_server_type`) -/

/-- Python `s.endswith(suffix)`. -/
def ends_with (suffix s : String) : Bool := suffix.data.isSuffixOf s.data

/-- `f.endswith('.py')`. -/
def has_py_ext (f : String) : Bool := ends_with ".py" f

/-- The per-entry test of the detection loop: a Python file with truthy
content mentioning fastapi or uvicorn case-insensitively. -/
def py_fastapi_hit (e : String × String) : Bool :=
  has_py_ext e.1 && !(e.2 == "") &&
    (occursB "fastapi".data (pyLower e.2.data) || occursB "uvicorn".data (pyLower e.2.data))

/-- `web_extensions = ['.css', '.js', '.jsx', '.ts', '.tsx']`. -/
def web_extensions : List String := [".css", ".js", ".jsx", ".ts", ".tsx"]

/-- `detect_server_type` (previewer.py, lines 18-55). -/
def detect_server_type (files : List (String × String)) : Option String :=
  if files.isEmpty then none
  else if (files.any fun e => has_py_ext e.1) && files.any py_fastapi_hit then
    some "fastapi"
  else if files.any (fun e => e.1 == "package.json") then some "nodejs"
  else if files.any (fun e => ends_with ".html" e.1 || ends_with ".htm" e.1) then
    some "static"
  else if files.any (fun e => web_extensions.any (fun ext => ends_with ext e.1)) then
    some "static"
  else none

/-- Modelled from the spec: detection rule 1, "any file ending in a Python
source extension whose content case-insensitively mentions a known
async-web-framework name or its companion ASGI server name". -/
def spec_rule_fastapi (files : List (String × String)) : Bool :=
  files.any (fun e => has_py_ext e.1 &&
    (occursB "fastapi".data (pyLower e.2.data) || occursB "uvicorn".data (pyLower e.2.data)))

/-- Modelled from the spec: the detection heuristic as a fixed-precedence
cascade, first match wins, no confident classification otherwise. -/
def spec_detect (files : List (String × String)) : Option String :=
  if spec_rule_fastapi files then some "fastapi"
  else if files.any (fun e => e.1 == "package.json") then some "nodejs"
  else if files.any (fun e => ends_with ".html" e.1 || ends_with ".htm" e.1) then
    some "static"
  else if files.any (fun e => web_extensions.any (fun ext => ends_with ext e.1)) then
    some "static"
  else none

/-- The auto-resolution step of `start_live_preview` (previewer.py, lines
119-127): on `auto`, use the detected type, falling back to `static`. -/
def resolve_preview_type (preview_type : String) (files : List (String × String)) :
    String :=
  if preview_type == "auto" then
    match detect_server_type files with
    | some t => t
    | none => "static"
  else preview_type

/-! ## Fastapi entry-file resolution (`previewer.py`, `start_live_preview`) -/

/-- `main_file = next((f for f in files.keys() if f in ['main.py', 'app.py',
'server.py']), 'main.py')` — note the generator iterates over the mapping's
keys in insertion order, not over the candidate list. -/
def fastapi_entry_file (files : List (String × String)) : String :=
  match files.find? (fun e => e.1 == "main.py" || e.1 == "app.py" || e.1 == "server.py") with
  | some e => e.1
  | none => "main.py"

/-- The fastapi start command derived by `start_live_preview` (previewer.py,
lines 186-201). -/
def fastapi_start_command (files : List (String × String)) (preview_port : Nat) : String :=
  if files.any (fun e => e.1 == "poetry.lock") then
    "poetry run fastapi dev " ++ fastapi_entry_file files ++ " --host 0.0.0.0 --port " ++
      toString preview_port
  else
    "fastapi dev " ++ fastapi_entry_file files ++ " --host 0.0.0.0 --port " ++
      toString preview_port

/-! ## Local directory round trip (`generator.py` `main` save loop and
`previewer.py` `load_files_from_directory`) -/

/-- The save loop of `generator.py`'s `main`: each (relative path, content)
entry is written at `output_dir/<path>` (parents created as needed).  The
local filesystem is modelled as a path→content association list. -/
def write_file_set (output_dir : String) (files : List (String × String)) :
    List (String × String) :=
  files.map (fun e => (output_dir ++ "/" ++ e.1, e.2))

/-- `load_files_from_directory` (previewer.py, lines 230-261): walk the
modelled filesystem, select the regular files under `directory_path`, and
key each one by its path relative to that directory. -/
def load_files_from_directory (directory_path : String)
    (fs : List (String × String)) : List (String × String) :=
  fs.filterMap (fun e =>
    if (directory_path ++ "/").data.isPrefixOf e.1.data then
      some ((⟨e.1.data.drop (directory_path ++ "/").data.length⟩ : String), e.2)
    else none)

/-! ## Preview operation lifecycle (`previewer.py`, `preview_directory`) -/

/-- Outcome of the sandbox-dependent steps of one `preview_directory` run:
whether `Sandbox.create` succeeds, whether the mkdir/copy loop completes
without raising, and the value `start_live_preview` returns (that function
catches all its own exceptions and returns a URL or `None`; it never calls
`sandbox.kill`). -/
structure PreviewBehavior where
  create_ok : Bool
  copy_ok : Bool
  launch_url : Option String

/-- `preview_directory` (previewer.py, lines 264-341), returning its result
together with the number of times `sandbox.kill()` is invoked on that path
(invocations are counted even when `kill` itself raises, since the source
catches such errors).  Branches, in source order: empty load returns early
with no sandbox; a creation failure reaches the `except` block with
`sandbox` still `None` (no kill); a copy failure reaches the `except` block
with a live sandbox (one kill); a `None` from `start_live_preview` skips the
keep-alive loop and returns `None` directly (no kill); a URL enters the
keep-alive loop, which only a `KeyboardInterrupt` exits (one kill, then the
URL is returned). -/
def preview_directory (local_fs : List (String × String)) (directory_path : String)
    (b : PreviewBehavior) : Option String × Nat :=
  let files := load_files_from_directory directory_path local_fs
  if files.isEmpty then (none, 0)
  else if !b.create_ok then (none, 0)
  else if !b.copy_ok then (none, 1)
  else
    match b.launch_url with
    | none => (none, 0)
    | some url => (some url, 1)

/-- The local directory used by the concrete C1 scenario. -/
def c1_local_fs : List (String × String) := [("/proj/index.html", "<h1>hi</h1>")]

/-! ## Lemmas about `dict_insert` and the harvesting fold -/

lemma isPrefixOf_self (l : List Char) : l.isPrefixOf l = true := by
  induction l with
  | nil => rfl
  | cons c t ih => simp [List.isPrefixOf, ih]

lemma mem_dict_insert {d : List (String × String)} {k v : String} :
    ∀ e ∈ dict_insert d k v, e.1 = k ∨ e ∈ d := by
  induction d with
  | nil =>
    intro e he
    simp only [dict_insert, List.mem_singleton] at he
    left; rw [he]
  | cons a rest ih =>
    intro e he
    by_cases h : a.1 = k
    · simp only [dict_insert, if_pos h] at he
      rcases List.mem_cons.mp he with h1 | h2
      · left; rw [h1]
      · right; exact List.mem_cons_of_mem _ h2
    · simp only [dict_insert, if_neg h] at he
      rcases List.mem_cons.mp he with h1 | h2
      · right; rw [h1]; exact List.mem_cons_self _ _
      · rcases ih e h2 with h3 | h4
        · left; exact h3
        · right; exact List.mem_cons_of_mem _ h4

lemma lookup_eq_none_of (d : List (String × String)) (k : String)
    (h : ∀ e ∈ d, e.1 ≠ k) : List.lookup k d = none := by
  induction d with
  | nil => rfl
  | cons a rest ih =>
    have ha : a.1 ≠ k := h a (List.mem_cons_self _ _)
    have hk : (k == a.1) = false := by
      simp only [beq_eq_false_iff_ne, ne_eq]
      exact fun hc => ha hc.symm
    simp only [List.lookup, hk]
    exact ih (fun e he => h e (List.mem_cons_of_mem _ he))

/-- Every key of the fold's result either came from the accumulator or is the
computed relative path of some kept listed file. -/
lemma harvest_fold_keys (read_file : String → Except String String)
    (project_dir : String) (paths : List String) :
    ∀ acc, ∀ e ∈ paths.foldl (harvest_step read_file project_dir) acc,
      e ∈ acc ∨ ∃ p, keep_path project_dir p = true ∧ e.1 = rel_path_of project_dir p := by
  induction paths with
  | nil => intro acc e he; exact Or.inl he
  | cons p rest ih =>
    intro acc e he
    simp only [List.foldl_cons] at he
    rcases ih _ e he with hmem | hkept
    · unfold harvest_step at hmem
      by_cases h1 : (pyStrip p.data).isEmpty
      · rw [if_pos h1] at hmem; exact Or.inl hmem
      · rw [if_neg h1] at hmem
        by_cases h2 : keep_path project_dir p
        · rw [if_pos h2] at hmem
          rcases mem_dict_insert e hmem with hk | hacc
          · exact Or.inr ⟨p, h2, hk⟩
          · exact Or.inl hacc
        · rw [if_neg h2] at hmem; exact Or.inl hmem
    · exact Or.inr hkept

/-- A kept key never starts with the prompt-file name and is never one of the
two history files. -/
lemma kept_key_not_bookkeeping (project_dir p : String)
    (h : keep_path project_dir p = true) :
    rel_path_of project_dir p ≠ ".aider_prompt.txt" ∧
    rel_path_of project_dir p ≠ ".aider.input.history" ∧
    rel_path_of project_dir p ≠ ".aider.chat.history.md" := by
  unfold keep_path at h
  simp only [Bool.and_eq_true, Bool.not_eq_true'] at h
  obtain ⟨hpre, hskip⟩ := h
  refine ⟨?_, ?_, ?_⟩
  · intro hc
    rw [hc] at hpre
    rw [show (".aider_prompt.txt" : String).data = prompt_file_name.data from rfl,
      isPrefixOf_self] at hpre
    exact Bool.noConfusion hpre
  · intro hc
    rw [hc] at hskip
    simp [skip_file_names] at hskip
  · intro hc
    rw [hc] at hskip
    simp [skip_file_names] at hskip

lemma harvest_step_of_kept (read_file : String → Except String String)
    (project_dir : String) (acc : List (String × String)) (p : String)
    (h : kept project_dir p = true) :
    harvest_step read_file project_dir acc p =
      dict_insert acc (rel_path_of project_dir p) (read_outcome read_file p) := by
  unfold kept at h
  simp only [Bool.and_eq_true, Bool.not_eq_true'] at h
  unfold harvest_step
  rw [if_neg (by simp [h.1]), if_pos h.2]

lemma harvest_step_of_not_kept (read_file : String → Except String String)
    (project_dir : String) (acc : List (String × String)) (p : String)
    (h : kept project_dir p = false) :
    harvest_step read_file project_dir acc p = acc := by
  unfold kept at h
  unfold harvest_step
  by_cases h1 : (pyStrip p.data).isEmpty
  · rw [if_pos h1]
  · rw [if_neg h1]
    simp only [h1, Bool.not_false, Bool.true_and] at h
    rw [if_neg (by simp [h])]

lemma dict_insert_of_fresh (d : List (String × String)) (k v : String)
    (h : ∀ e ∈ d, e.1 ≠ k) : dict_insert d k v = d ++ [(k, v)] := by
  induction d with
  | nil => rfl
  | cons a rest ih =>
    have ha : a.1 ≠ k := h a (List.mem_cons_self _ _)
    simp only [dict_insert, if_neg ha, List.cons_append]
    rw [ih (fun e he => h e (List.mem_cons_of_mem _ he))]

/-- The harvesting fold, run on pairwise-distinct relative keys, is the
association list of one entry per kept listed path. -/
lemma harvest_fold_eq (read_file : String → Except String String)
    (project_dir : String) :
    ∀ (paths : List String) (acc : List (String × String)),
    ((paths.filter (kept project_dir)).map (rel_path_of project_dir)).Nodup →
    (∀ k ∈ (paths.filter (kept project_dir)).map (rel_path_of project_dir),
       ∀ e ∈ acc, e.1 ≠ k) →
    paths.foldl (harvest_step read_file project_dir) acc =
      acc ++ (paths.filter (kept project_dir)).map
        (fun p => (rel_path_of project_dir p, read_outcome read_file p)) := by
  intro paths
  induction paths with
  | nil => intro acc _ _; simp
  | cons p rest ih =>
    intro acc hnodup hdisj
    by_cases hk : kept project_dir p
    · have hfilter : (p :: rest).filter (kept project_dir) =
        p :: rest.filter (kept project_dir) := by
        simp [List.filter_cons, hk]
      rw [hfilter] at hnodup hdisj
      simp only [List.map_cons, List.nodup_cons] at hnodup
      have hfresh : ∀ e ∈ acc, e.1 ≠ rel_path_of project_dir p :=
        hdisj _ (List.mem_cons_self _ _)
      have hstep : (p :: rest).foldl (harvest_step read_file project_dir) acc =
          rest.foldl (harvest_step read_file project_dir)
            (acc ++ [(rel_path_of project_dir p, read_outcome read_file p)]) := by
        rw [List.foldl_cons, harvest_step_of_kept _ _ _ _ hk,
          dict_insert_of_fresh _ _ _ hfresh]
      rw [hstep, ih _ hnodup.2 ?_]
      · rw [hfilter]
        simp [List.append_assoc]
      · intro k hkmem e hemem
        rcases List.mem_append.mp hemem with hacc | hsingle
        · exact hdisj k (List.mem_cons_of_mem _ hkmem) e hacc
        · rw [List.mem_singleton.mp hsingle]
          intro hc
          have hc' : rel_path_of project_dir p = k := hc
          subst hc'
          exact hnodup.1 hkmem
    · have hk' : kept project_dir p = false := by
        exact Bool.not_eq_true _ ▸ (by simpa using hk)
      have hfilter : (p :: rest).filter (kept project_dir) =
        rest.filter (kept project_dir) := by
        simp [List.filter_cons, hk']
      rw [hfilter] at hnodup hdisj
      rw [List.foldl_cons, harvest_step_of_not_kept _ _ _ _ hk', ih _ hnodup hdisj,
        hfilter]

lemma lookup_entry_map (read_file : String → Except String String)
    (project_dir : String) (l : List String) (p : String)
    (hnodup : (l.map (rel_path_of project_dir)).Nodup) (hp : p ∈ l) :
    List.lookup (rel_path_of project_dir p)
      (l.map (fun q => (rel_path_of project_dir q, read_outcome read_file q))) =
      some (read_outcome read_file p) := by
  induction l with
  | nil => exact absurd hp (List.not_mem_nil p)
  | cons q rest ih =>
    simp only [List.map_cons, List.nodup_cons] at hnodup
    rcases List.mem_cons.mp hp with hpq | hprest
    · subst hpq
      simp [List.lookup]
    · have hne : rel_path_of project_dir p ≠ rel_path_of project_dir q := by
        intro hc
        exact hnodup.1 (hc ▸ List.mem_map_of_mem (rel_path_of project_dir) hprest)
      have hbeq : (rel_path_of project_dir p == rel_path_of project_dir q) = false := by
        simp [hne]
      simp only [List.map_cons, List.lookup, hbeq]
      exact ih hnodup.2 hprest

/-! ## Semantics of the harvester's key computation (Python `str.replace`) -/

lemma replaceAllFuel_congr (pat : List Char) :
    ∀ (fuel₁ : Nat) (s : List Char) (fuel₂ : Nat), s.length ≤ fuel₁ → s.length ≤ fuel₂ →
      replaceAllFuel pat fuel₁ s = replaceAllFuel pat fuel₂ s := by
  intro fuel₁
  induction fuel₁ with
  | zero =>
    intro s fuel₂ h1 _
    have hs : s = [] := List.length_eq_zero.mp (Nat.le_zero.mp h1)
    subst hs
    cases fuel₂ <;> rfl
  | succ f ih =>
    intro s fuel₂ h1 h2
    cases s with
    | nil => cases fuel₂ <;> rfl
    | cons c rest =>
      cases fuel₂ with
      | zero => simp at h2
      | succ f₂ =>
        simp only [replaceAllFuel]
        by_cases hp : pat.isPrefixOf (c :: rest)
        · rw [if_pos hp, if_pos hp]
          refine ih _ _ ?_ ?_ <;>
            · simp only [List.length_drop]
              simp only [List.length_cons] at h1 h2
              omega
        · rw [if_neg hp, if_neg hp]
          rw [ih rest f₂ ?_ ?_] <;>
            · simp only [List.length_cons] at h1 h2
              omega

lemma replaceAllFuel_of_no_occurrence (pat : List Char) :
    ∀ (fuel : Nat) (s : List Char), s.length ≤ fuel → occursB pat s = false →
      replaceAllFuel pat fuel s = s := by
  intro fuel
  induction fuel with
  | zero =>
    intro s h1 _
    have hs : s = [] := List.length_eq_zero.mp (Nat.le_zero.mp h1)
    subst hs
    rfl
  | succ f ih =>
    intro s h1 hocc
    cases s with
    | nil => rfl
    | cons c rest =>
      simp only [occursB, Bool.or_eq_false_iff] at hocc
      simp only [replaceAllFuel]
      rw [ih rest (by simp only [List.length_cons] at h1; omega) hocc.2,
        if_neg (by simp [hocc.1])]

lemma replaceAllFuel_append (pat : List Char) (hne : pat ≠ []) :
    ∀ (fuel : Nat) (s : List Char), (pat ++ s).length ≤ fuel →
      replaceAllFuel pat fuel (pat ++ s) = replaceAllFuel pat s.length s := by
  obtain ⟨p, ps, rfl⟩ : ∃ p ps, pat = p :: ps := by
    cases pat with
    | nil => exact absurd rfl hne
    | cons p ps => exact ⟨p, ps, rfl⟩
  intro fuel s h
  cases fuel with
  | zero => simp at h
  | succ f =>
    have hpre : (p :: ps).isPrefixOf ((p :: ps) ++ s) = true := by
      rw [ List.isPrefixOf_iff_prefix]
      exact List.prefix_append _ _
    simp only [List.cons_append] at hpre ⊢
    simp only [replaceAllFuel, if_pos hpre]
    rw [show (p :: ps).length - 1 = ps.length by simp]
    rw [List.drop_left]
    refine replaceAllFuel_congr _ f s _ ?_ (le_refl _)
    simp only [List.length_append, List.length_cons] at h
    omega

lemma replaceAllD_of_ne_nil (pat s : List Char) (hne : pat ≠ []) :
    replaceAllD pat s = replaceAllFuel pat s.length s := by
  cases pat with
  | nil => exact absurd rfl hne
  | cons p ps => rfl

lemma detect_eq_spec_detect (files : List (String × String)) :
    detect_server_type files = spec_detect files := by
  have key : ((files.any fun e => has_py_ext e.1) && files.any py_fastapi_hit) =
      spec_rule_fastapi files := by
    rw [Bool.eq_iff_iff]
    constructor
    · intro hb
      rw [Bool.and_eq_true] at hb
      rcases List.any_eq_true.mp hb.2 with ⟨e, he, hhit⟩
      unfold py_fastapi_hit at hhit
      rw [Bool.and_eq_true, Bool.and_eq_true] at hhit
      exact List.any_eq_true.mpr ⟨e, he, by
        rw [Bool.and_eq_true]
        exact ⟨hhit.1.1, hhit.2⟩⟩
    · intro hb
      rcases List.any_eq_true.mp hb with ⟨e, he, hpred⟩
      rw [Bool.and_eq_true] at hpred
      have hnonempty : (e.2 == "") = false := by
        rcases hbe : e.2 == "" with _ | _
        · rfl
        · exfalso
          have he2 : e.2 = "" := by simpa using hbe
          rw [he2] at hpred
          rw [show ("" : String).data = (("" : String).data) from rfl] at hpred
          have h1 : occursB "fastapi".data (pyLower ("" : String).data) = false := by decide
          have h2 : occursB "uvicorn".data (pyLower ("" : String).data) = false := by decide
          rw [h1, h2] at hpred
          simp at hpred
      rw [Bool.and_eq_true]
      constructor
      · exact List.any_eq_true.mpr ⟨e, he, hpred.1⟩
      · refine List.any_eq_true.mpr ⟨e, he, ?_⟩
        unfold py_fastapi_hit
        rw [Bool.and_eq_true, Bool.and_eq_true]
        exact ⟨⟨hpred.1, by rw [hnonempty]; rfl⟩, hpred.2⟩
  unfold detect_server_type spec_detect
  by_cases hempty : files.isEmpty
  · have hnil : files = [] := by simpa using hempty
    subst hnil
    simp [spec_rule_fastapi]
  · rw [if_neg hempty, key]

lemma strip_leading_dir (d p : String) :
    (d ++ "/").data.isPrefixOf (d ++ "/" ++ p).data = true ∧
    (⟨(d ++ "/" ++ p).data.drop (d ++ "/").data.length⟩ : String) = p := by
  have hdata : (d ++ "/" ++ p).data = (d ++ "/").data ++ p.data :=
    String.data_append _ _
  constructor
  · rw [hdata, List.isPrefixOf_iff_prefix]
    exact List.prefix_append _ _
  · rw [hdata, List.drop_left]

/-- Claim C4: for every file listing produced by the session — including
listings that contain the persisted prompt file, the tool's input-history
file, or its chat-history file — the mapping returned by the harvest step
contains no entry for the prompt-persistence file nor for either history
file. -/
theorem harvest_never_maps_bookkeeping_files (find_result : CmdResult)
    (read_file : String → Except String String) (project_dir : String) :
    List.lookup ".aider_prompt.txt"
        (get_generated_files find_result read_file project_dir) = none ∧
    List.lookup ".aider.input.history"
        (get_generated_files find_result read_file project_dir) = none ∧
    List.lookup ".aider.chat.history.md"
        (get_generated_files find_result read_file project_dir) = none := by
  unfold get_generated_files
  by_cases hx : find_result.exit_code ≠ 0
  · rw [if_pos hx]
    refine ⟨?_, ?_, ?_⟩ <;> simp [List.lookup]
  · rw [if_neg hx]
    have hkeys := harvest_fold_keys read_file project_dir
      (parse_find_stdout find_result.stdout) []
    refine ⟨?_, ?_, ?_⟩ <;>
      refine lookup_eq_none_of _ _ (fun e he => ?_)
    · rcases hkeys e he with h | ⟨p, hk, hrel⟩
      · exact absurd h (List.not_mem_nil e)
      · rw [hrel]; exact (kept_key_not_bookkeeping project_dir p hk).1
    · rcases hkeys e he with h | ⟨p, hk, hrel⟩
      · exact absurd h (List.not_mem_nil e)
      · rw [hrel]; exact (kept_key_not_bookkeeping project_dir p hk).2.1
    · rcases hkeys e he with h | ⟨p, hk, hrel⟩
      · exact absurd h (List.not_mem_nil e)
      · rw [hrel]; exact (kept_key_not_bookkeeping project_dir p hk).2.2

/-- Claim C8: for every file listing and every subset of listed files whose
individual reads fail, harvest still returns an entry for every readable file
with its content, and for each unreadable file it stores the placeholder
`Error reading file: ...` under that file's key; since the characterisation
below holds pointwise for an arbitrary read behaviour, one unreadable file
never removes or alters any other file's entry. -/
theorem harvest_isolates_read_failures (find_result : CmdResult)
    (read_file : String → Except String String) (project_dir : String)
    (p : String)
    (hexit : find_result.exit_code = 0)
    (hnodup : (((parse_find_stdout find_result.stdout).filter
        (kept project_dir)).map (rel_path_of project_dir)).Nodup)
    (hp : p ∈ parse_find_stdout find_result.stdout)
    (hkept : kept project_dir p = true) :
    (∀ c, read_file p = .ok c →
      List.lookup (rel_path_of project_dir p)
        (get_generated_files find_result read_file project_dir) = some c) ∧
    (∀ m, read_file p = .error m →
      List.lookup (rel_path_of project_dir p)
        (get_generated_files find_result read_file project_dir) =
          some ("Error reading file: " ++ m)) := by
  have hmap : get_generated_files find_result read_file project_dir =
      ((parse_find_stdout find_result.stdout).filter (kept project_dir)).map
        (fun q => (rel_path_of project_dir q, read_outcome read_file q)) := by
    unfold get_generated_files
    rw [if_neg (by simp [hexit])]
    rw [harvest_fold_eq read_file project_dir _ [] hnodup (by intro k _ e he; cases he)]
    simp
  have hlook : List.lookup (rel_path_of project_dir p)
      (get_generated_files find_result read_file project_dir) =
      some (read_outcome read_file p) := by
    rw [hmap]
    exact lookup_entry_map read_file project_dir _ p hnodup
      (List.mem_filter.mpr ⟨hp, hkept⟩)
  constructor
  · intro c hc
    rw [hlook]
    simp [read_outcome, hc]
  · intro m hm
    rw [hlook]
    simp [read_outcome, hm]

theorem harvest_isolates_read_failures_witness :
    List.lookup (rel_path_of "/tmp/project" "/tmp/project/b.py")
      (get_generated_files c8_find c8_read "/tmp/project") =
      some ("Error reading file: " ++ "boom") :=
  (harvest_isolates_read_failures c8_find c8_read "/tmp/project"
    "/tmp/project/b.py" rfl (by decide) (by decide) (by decide)).2 "boom" rfl

/-- Claim C10: the harvester computes each key by deleting every occurrence
of `project_dir ++ "/"` from the discovered path, not only the leading
prefix.  First conjunct: when the pattern does not occur in the remainder
(in particular whenever it occurs exactly once, as the leading prefix), the
key is the true relative path.  Second conjunct: a path containing
`/tmp/project/` again as an interior component has those interior characters
removed as well, so its key `ab` differs from the true relative path
`a/tmp/project/b`. -/
theorem rel_path_deletes_every_occurrence :
    (∀ (project_dir suffix : String),
      occursB (project_dir ++ "/").data suffix.data = false →
      rel_path_of project_dir ⟨(project_dir ++ "/").data ++ suffix.data⟩ = suffix) ∧
    rel_path_of "/tmp/project" "/tmp/project/a/tmp/project/b" = "ab" ∧
    ("a/tmp/project/b" : String) ≠ "ab" := by
  refine ⟨?_, by decide, by decide⟩
  intro project_dir suffix hocc
  have hne : (project_dir ++ "/").data ≠ [] := by
    rw [String.data_append]
    simp [String.data]
  unfold rel_path_of
  rw [replaceAllD_of_ne_nil _ _ hne]
  rw [replaceAllFuel_append _ hne _ _ (le_refl _)]
  rw [replaceAllFuel_of_no_occurrence _ _ _ (le_refl _) hocc]

theorem rel_path_deletes_every_occurrence_witness :
    rel_path_of "/tmp/project" ⟨("/tmp/project" ++ "/").data ++ ("a.py" : String).data⟩ =
      "a.py" :=
  rel_path_deletes_every_occurrence.1 "/tmp/project" "a.py" (by decide)

/-- Counterexample to claim C2 as stated: a session whose creation raises an
exception with an empty message produces `success = false` with
`error_message = some ""` — set, but empty, contradicting "a non-empty
message". -/
theorem generate_code_empty_error_message :
    (generate_code c2_cfg c2_behavior "p" "/tmp/project").success = false ∧
    (generate_code c2_cfg c2_behavior "p" "/tmp/project").error_message = some "" ∧
    ((generate_code c2_cfg c2_behavior "p" "/tmp/project").error_message.getD "x").length
      = 0 :=
  ⟨rfl, rfl, rfl⟩

/-- Claim C2 (amended): for every prompt and every session behaviour, if
`success` is false then `generated_files` is the empty mapping and
`error_message` is set (it echoes the raising exception's message, so it is
non-empty exactly when that message is); if `success` is true then
`error_message` is absent. -/
theorem generate_code_result_invariant (cfg : ClientCfg) (b : GenBehavior)
    (prompt project_dir : String) :
    ((generate_code cfg b prompt project_dir).success = false →
      (generate_code cfg b prompt project_dir).generated_files = [] ∧
      (generate_code cfg b prompt project_dir).error_message.isSome) ∧
    ((generate_code cfg b prompt project_dir).success = true →
      (generate_code cfg b prompt project_dir).error_message = none) := by
  unfold generate_code
  cases hE : generate_code_exec cfg b prompt project_dir with
  | ok v => simp
  | error m => simp

theorem generate_code_result_invariant_witness :
    (generate_code c2_cfg c2_behavior "p" "/tmp/project").generated_files = [] ∧
    (generate_code c2_cfg c2_behavior "p" "/tmp/project").error_message.isSome :=
  (generate_code_result_invariant c2_cfg c2_behavior "p" "/tmp/project").1 rfl

/-- Claim C6: if the setup steps succeed but the aider invocation exits with
a non-zero code `n`, `generate_code` still returns `success = true`, its
`generated_files` is still the harvest of the working directory, and the
combined output contains the literal decimal value of `n`. -/
theorem tool_failure_is_nonfatal (cfg : ClientCfg) (b : GenBehavior)
    (prompt project_dir : String) (m r fr : CmdResult) (n : Nat)
    (h1 : b.create_err = none)
    (h2 : b.mkdir_res = .ok m) (h3 : m.exit_code = 0)
    (h4 : (if cfg.aider_template_id.isNone then install_aider b else Except.ok ()) =
      Except.ok ())
    (h5 : b.write_prompt_res = .ok ())
    (h6 : b.aider_res = .ok r) (h7 : r.exit_code = n) (h8 : n ≠ 0)
    (h9 : b.find_res = .ok fr) :
    (generate_code cfg b prompt project_dir).success = true ∧
    (generate_code cfg b prompt project_dir).generated_files =
      get_generated_files fr b.read_file project_dir ∧
    ∃ pre post, (generate_code cfg b prompt project_dir).output =
      pre ++ toString n ++ post := by
  have hout : generate_code cfg b prompt project_dir =
      { success := true, output := run_aider_prompt_output r,
        generated_files := get_generated_files fr b.read_file project_dir,
        error_message := none } := by
    unfold generate_code generate_code_exec run_aider_prompt
    rw [h1, h2, h5, h6, h9, h4]
    simp [h3]
  rw [hout]
  refine ⟨rfl, rfl, ?_⟩
  refine ⟨"STDOUT:\n" ++ r.stdout ++ "\nSTDERR:\n" ++ r.stderr ++ "\nReturn code: ",
    "", ?_⟩
  simp [run_aider_prompt_output, h7, String.append_assoc]

theorem tool_failure_is_nonfatal_witness :
    (generate_code c6_cfg c6_behavior "p" "/tmp/project").success = true ∧
    (generate_code c6_cfg c6_behavior "p" "/tmp/project").generated_files =
      get_generated_files ⟨0, "/tmp/project/x.py", ""⟩ c6_behavior.read_file
        "/tmp/project" ∧
    ∃ pre post, (generate_code c6_cfg c6_behavior "p" "/tmp/project").output =
      pre ++ toString 2 ++ post :=
  tool_failure_is_nonfatal c6_cfg c6_behavior "p" "/tmp/project"
    ⟨0, "", ""⟩ ⟨2, "OUT", "ERR"⟩ ⟨0, "/tmp/project/x.py", ""⟩ 2
    rfl rfl rfl rfl rfl rfl rfl (by decide) rfl

/-- Claim C5: for every prompt text (quotes, newlines and control characters
included), the generation step persists the prompt into a file inside the
working directory and references that file in the tool invocation; the
command string is identical for any two prompts, so the prompt text is never
interpolated into the shell command. -/
theorem prompt_persisted_not_interpolated (p1 p2 project_dir key model : String)
    (base : Option String) :
    (run_aider_prompt_plan p1 project_dir key base model).1 =
      (project_dir ++ "/.aider_prompt.txt", p1) ∧
    (run_aider_prompt_plan p1 project_dir key base model).2 =
      (run_aider_prompt_plan p2 project_dir key base model).2 ∧
    ∃ pre post, (run_aider_prompt_plan p1 project_dir key base model).2 =
      pre ++ ("--message-file \x27" ++ (project_dir ++ "/.aider_prompt.txt") ++ "\x27")
        ++ post := by
  refine ⟨rfl, rfl, ?_⟩
  refine ⟨"aider --model \x27" ++ model ++ "\x27 " ++
    "--openai-api-key \x27" ++ key ++ "\x27 " ++
    (match base with
     | some b => "--openai-api-base \x27" ++ b ++ "\x27 "
     | none => ""), " --no-git --yes", ?_⟩
  simp only [run_aider_prompt_plan, aider_command, prompt_file_path,
    String.append_assoc]
  rw [show ("\x27" ++ " --no-git --yes" : String) = "\x27 --no-git --yes" from rfl]

/-- Claim C7: the auto-detection classifier applies its rules in the fixed
precedence order (fastapi-mentioning Python file, then package.json, then
HTML-family extension, then stylesheet/script extensions, else no
classification), first match winning; the four concrete detections of the
spec hold, and on no confident match the caller falls back to `static`. -/
theorem detect_server_type_cascade_and_examples :
    (∀ files, detect_server_type files = spec_detect files) ∧
    detect_server_type [("main.py", "import fastapi")] = some "fastapi" ∧
    detect_server_type [("package.json", "\x7b\x7d")] = some "nodejs" ∧
    detect_server_type [("index.html", "<html></html>")] = some "static" ∧
    detect_server_type [("notes.txt", "hello")] = none ∧
    resolve_preview_type "auto" [("notes.txt", "hello")] = "static" :=
  ⟨detect_eq_spec_detect, by decide, by decide, by decide, by decide, by decide⟩

/-- Counterexample to claim C3 as stated: the FileSet
`[("app.py", _), ("main.py", _)]` contains `main.py`, yet the resolved entry
file is `app.py` — the scan follows the mapping's insertion order, not the
preference-list order `main.py, app.py, server.py`. -/
theorem fastapi_entry_file_insertion_order_counterexample :
    ("main.py" ∈ ([("app.py", "a"), ("main.py", "m")] : List (String × String)).map
      Prod.fst) ∧
    fastapi_entry_file [("app.py", "a"), ("main.py", "m")] = "app.py" ∧
    fastapi_start_command [("app.py", "a"), ("main.py", "m")] 8000 =
      "fastapi dev app.py --host 0.0.0.0 --port 8000" ∧
    fastapi_start_command [("app.py", "a"), ("main.py", "m")] 8000 ≠
      "fastapi dev main.py --host 0.0.0.0 --port 8000" :=
  ⟨by decide, by decide, by decide, by decide⟩

/-- Claim C3 (amended): the launcher resolves the entry file by scanning the
file mapping in insertion order and picking the first key that is one of
`main.py`, `app.py`, `server.py`, defaulting to `main.py` when none is
present; hence the start command targets `main.py` for every FileSet in
which `main.py` occurs before any other candidate — in particular whenever
no `app.py` or `server.py` entry precedes it — but not for every FileSet
containing `main.py`. -/
theorem fastapi_entry_file_first_candidate (pre post : List (String × String))
    (c : String) (preview_port : Nat)
    (h : ∀ e ∈ pre, e.1 ≠ "main.py" ∧ e.1 ≠ "app.py" ∧ e.1 ≠ "server.py") :
    fastapi_entry_file (pre ++ ("main.py", c) :: post) = "main.py" ∧
    ((pre ++ ("main.py", c) :: post).any (fun e => e.1 == "poetry.lock") = false →
      fastapi_start_command (pre ++ ("main.py", c) :: post) preview_port =
        "fastapi dev main.py --host 0.0.0.0 --port " ++ toString preview_port) := by
  have hfind : (pre ++ ("main.py", c) :: post).find?
      (fun e => e.1 == "main.py" || e.1 == "app.py" || e.1 == "server.py") =
      some ("main.py", c) := by
    rw [List.find?_append]
    have hnone : pre.find?
        (fun e => e.1 == "main.py" || e.1 == "app.py" || e.1 == "server.py") = none := by
      rw [List.find?_eq_none]
      intro e he
      obtain ⟨h1, h2, h3⟩ := h e he
      simp [h1, h2, h3]
    rw [hnone]
    simp [List.find?]
  constructor
  · unfold fastapi_entry_file
    rw [hfind]
  · intro hlock
    unfold fastapi_start_command
    rw [if_neg (by simp [hlock])]
    unfold fastapi_entry_file
    rw [hfind]
    rfl

theorem fastapi_entry_file_first_candidate_witness :
    fastapi_start_command ([] ++ ("main.py", "x") :: []) 8000 =
      "fastapi dev main.py --host 0.0.0.0 --port " ++ toString 8000 :=
  (fastapi_entry_file_first_candidate [] [] "x" 8000
    (fun e he => absurd he (List.not_mem_nil e))).2 (by decide)

/-- Claim C9: writing a FileSet to a directory and loading that directory
back reproduces the same path→content mapping — identical keys and identical
content for each key. -/
theorem write_then_load_round_trip (output_dir : String)
    (files : List (String × String)) :
    load_files_from_directory output_dir (write_file_set output_dir files) = files := by
  induction files with
  | nil => rfl
  | cons e rest ih =>
    unfold write_file_set load_files_from_directory at ih ⊢
    simp only [List.map_cons, List.filterMap_cons]
    rw [if_pos (strip_leading_dir output_dir e.1).1, (strip_leading_dir output_dir e.1).2,
      ih]

/-- Claim C1 failing input: the sandbox is created and the files are copied,
but the launch step fails and `start_live_preview` returns `None` without
raising.  `preview_directory` then returns `None` with zero `kill`
invocations — the sandbox it created is never destroyed, contradicting the
exactly-once destroy contract (the copy-failure and interrupted-success
paths, in contrast, do kill exactly once). -/
theorem preview_directory_leaks_sandbox_on_failed_launch :
    preview_directory c1_local_fs "/proj"
      { create_ok := true, copy_ok := true, launch_url := none } = (none, 0) ∧
    (preview_directory c1_local_fs "/proj"
      { create_ok := true, copy_ok := true, launch_url := none }).2 ≠ 1 ∧
    preview_directory c1_local_fs "/proj"
      { create_ok := true, copy_ok := false, launch_url := none } = (none, 1) ∧
    preview_directory c1_local_fs "/proj"
      { create_ok := true, copy_ok := true, launch_url := some "https://h" } =
      (some "https://h", 1) :=
  ⟨by decide, by decide, by decide, by decide⟩
